import Mathlib

/-!
Shallow embedding of `src/nbp/publication.py` (python-nbp): publication-number
resolution and backward-search over NBP currency tables.

Python integers are modelled as `Int` (or `Nat` where the source value is a
count), strings as `String`, `None`-able values as `Option`, and exceptions as
`Except PyError`.  The modules `dateutils` and `caching` are not part of the
source tree; the functions taken from them are modelled from the spec and
marked as such in their doc comments.
-/

/-- Python exception classes that the embedded code can raise. -/
inductive PyError where
  | assertionError
  | keyError
  | parseFailure
  deriving DecidableEq, Repr

instance {ε α : Type} [DecidableEq ε] [DecidableEq α] : DecidableEq (Except ε α) :=
  fun a b =>
  match a, b with
  | .ok x, .ok y => if h : x = y then .isTrue (by rw [h]) else .isFalse (by simp [h])
  | .error x, .error y => if h : x = y then .isTrue (by rw [h]) else .isFalse (by simp [h])
  | .ok _, .error _ => .isFalse (by simp)
  | .error _, .ok _ => .isFalse (by simp)

/-- A plain calendar date `(year, month, day)`, as `datetime.date`. -/
structure Date where
  year : Int
  month : Nat
  day : Nat
  deriving DecidableEq, Repr

/-- Gregorian leap-year test. -/
def isLeapYear (y : Int) : Bool :=
  y % 4 == 0 && (y % 100 != 0 || y % 400 == 0)

/-- Number of days in month `m` of year `y`. -/
def daysInMonth (y : Int) (m : Nat) : Nat :=
  if m == 2 then (if isLeapYear y then 29 else 28)
  else if m == 4 || m == 6 || m == 9 || m == 11 then 30
  else 31

/-- 1-based ordinal of the date within its year (Jan 1 ↦ 1). -/
def dayOfYear (d : Date) : Nat :=
  ((List.range (d.month - 1)).map (fun i => daysInMonth d.year (i + 1))).sum + d.day

/-- Proleptic-Gregorian rata-die number of a date (0001-01-01 ↦ 1, a Monday);
`%` on `Int` is Euclidean, so `rataDie d % 7` gives the weekday with
Monday ↦ 1, …, Saturday ↦ 6, Sunday ↦ 0. -/
def rataDie (d : Date) : Int :=
  365 * (d.year - 1) + (d.year - 1).fdiv 4 - (d.year - 1).fdiv 100
    + (d.year - 1).fdiv 400 + (dayOfYear d : Int)

/-- `date(year, 1, 1) - timedelta(days=1)`: the last calendar day of the
previous year, i.e. December 31 of `year - 1`. -/
def prevYearLastDay (year : Int) : Date :=
  ⟨year - 1, 12, 31⟩

/-- Modelled from the spec: `dateutils.count_working_days` (module absent from
the source tree).  Counts the days from January 1 of the date's year through
the given date inclusive, excluding Saturdays and Sundays. -/
def count_working_days (d : Date) : Nat :=
  ((List.range (dayOfYear d)).map
    (fun i : Nat => rataDie ⟨d.year, 1, 1⟩ + (i : Int))).countP
    (fun n => n % 7 != 6 && n % 7 != 0)

/-- Modelled from the spec: `dateutils.count_wednesdays` (module absent from
the source tree).  Counts the Wednesdays from January 1 of the date's year
through the given date inclusive. -/
def count_wednesdays (d : Date) : Nat :=
  ((List.range (dayOfYear d)).map
    (fun i : Nat => rataDie ⟨d.year, 1, 1⟩ + (i : Int))).countP
    (fun n => n % 7 == 3)

/-- `TABLE_TYPES = [A, B]` with `A = 'a'`, `B = 'b'`. -/
def TABLE_TYPES : List String := ["a", "b"]

/-- Python `str.lower()` (ASCII letters, which is all the table types use). -/
def pyLower (s : String) : String :=
  String.mk (s.data.map Char.toLower)

/-- The dict `TABLE_TYPES_DAY_COUNTER`, as a partial lookup (`KeyError` when
the key is absent is surfaced as `none`). -/
def TABLE_TYPES_DAY_COUNTER (key : String) : Option (Date → Nat) :=
  if key == "a" then some count_working_days
  else if key == "b" then some count_wednesdays
  else none

/-- `calculate_number(date, table_type)`: asserts `table_type in TABLE_TYPES`,
then dispatches through `TABLE_TYPES_DAY_COUNTER[table_type.lower()]`. -/
def calculate_number (d : Date) (table_type : String) : Except PyError Nat :=
  if table_type ∈ TABLE_TYPES then
    match TABLE_TYPES_DAY_COUNTER (pyLower table_type) with
    | some func => .ok (func d)
    | none => .error .keyError
  else
    .error .assertionError

-- URLS BUILDING -------------------------------------------------------------

def NBP_CURRENCY_TABLE_URL_PREFIX : String := "http://rss.nbp.pl/kursy/xml2/"

/-- `str.rjust(width, fillchar)`: left-pad to `width`, never truncate. -/
def strRjust (s : String) (width : Nat) (fill : Char) : String :=
  if width ≤ s.length then s
  else String.mk (List.replicate (width - s.length) fill) ++ s

/-- `os.path.join(a, b)` for a relative second component: insert the `/`
separator unless the first component is empty or already ends in one. -/
def osPathJoin (a b : String) : String :=
  if a.isEmpty then b
  else if a.data.getLast? == some '/' then a ++ b
  else a ++ "/" ++ b

/-- The `'%s/%s/%s%s%s.xml'` pattern filled with
`(year, table_type, short_year, table_type, pub_number)`. -/
def urlPath (year : Int) (table_type short_year pub_number : String) : String :=
  toString year ++ "/" ++ table_type ++ "/" ++ short_year ++ table_type
    ++ pub_number ++ ".xml"

/-- `build_url(year, pub_number, table_type, cache_dir=None)`: returns the
`(url, cache_file_path)` pair.  `str(year)[2:]` is the short year,
`str(pub_number).rjust(3, '0')` the padded publication number; the cache path
is `os.path.join(cache_dir, path)` when `cache_dir` is truthy, else `None`. -/
def build_url (year : Int) (pub_number : Int) (table_type : String)
    (cache_dir : Option String := none) : String × Option String :=
  let short_year := (toString year).drop 2
  let padded := strRjust (toString pub_number) 3 '0'
  let path := urlPath year table_type short_year padded
  let url := NBP_CURRENCY_TABLE_URL_PREFIX ++ path
  let cache_file_path :=
    match cache_dir with
    | some cd => if cd.isEmpty then none else some (osPathJoin cd path)
    | none => none
  (url, cache_file_path)

/-- A `(url, cache_file_path)` pair as yielded by `gen_urls`. -/
abbrev ResourceLocation := String × Option String

/-- `gen_urls(year, pub_number, table_type, gen_number=15, cache_dir=None)`:
the backward publication sequencer, embedded as the list of the tuples the
generator yields.  Each step first rolls the coordinate into the previous
year when `pub_number == 0` (recomputing the number via the Calculator on
the last day of the previous year), then yields `build_url(...)`, then
decrements `pub_number` and the budget.  An exception from
`calculate_number` aborts the generator. -/
def gen_urls (year : Int) (pub_number : Int) (table_type : String)
    (gen_number : Nat := 15) (cache_dir : Option String := none) :
    Except PyError (List ResourceLocation) :=
  match gen_number with
  | 0 => .ok []
  | n + 1 =>
    if pub_number == 0 then
      let previous_year_date := prevYearLastDay year
      match calculate_number previous_year_date table_type with
      | .error e => .error e
      | .ok k =>
        match gen_urls previous_year_date.year ((k : Int) - 1) table_type n cache_dir with
        | .error e => .error e
        | .ok rest =>
          .ok (build_url previous_year_date.year (k : Int) table_type cache_dir :: rest)
    else
      match gen_urls year (pub_number - 1) table_type n cache_dir with
      | .error e => .error e
      | .ok rest => .ok (build_url year pub_number table_type cache_dir :: rest)

-- DOWNLOAD, CACHING AND RESOLUTION ------------------------------------------

/-- One network answer for a URL: an HTTP response with a status code and a
body, or a transport-level error (`urllib2.URLError`). -/
inductive NetResponse where
  | response (code : Nat) (body : String)
  | transportError
  deriving DecidableEq, Repr

/-- The network collaborator: what a single blocking GET of each URL returns. -/
abbrev Network := String → NetResponse

/-- `download(url)`: `urllib2.urlopen` wrapped in `try/except urllib2.URLError`.
Returns the response on a 200 status; a non-200 status or a caught transport
error falls through to `None`. -/
def download (net : Network) (url : String) : Option String :=
  match net url with
  | .response code body => if code == 200 then some body else none
  | .transportError => none

/-- `os.path.dirname`: everything before the final `/`. -/
def dirnameStr (p : String) : String :=
  String.intercalate "/" (p.splitOn "/").dropLast

/-- Modelled from the spec: the state behind the absent `caching` module — the
cache directory tree, as the set of existing directories and the mapping from
existing file paths to their contents. -/
structure CacheState where
  dirs : List String
  files : List (String × String)
  deriving DecidableEq, Repr

/-- Modelled from the spec: `cache.dir_exists()` — does the directory of the
cache file path exist. -/
def CacheState.dir_exists (st : CacheState) (p : String) : Bool :=
  st.dirs.contains (dirnameStr p)

/-- Modelled from the spec: `cache.create_dir()` — create the directory of the
cache file path (succeeds whether or not it already exists). -/
def CacheState.create_dir (st : CacheState) (p : String) : CacheState :=
  { st with dirs := dirnameStr p :: st.dirs }

/-- Modelled from the spec: `cache.file_exists()`. -/
def CacheState.file_exists (st : CacheState) (p : String) : Bool :=
  (st.files.lookup p).isSome

/-- Modelled from the spec: `cache.save(data)` — write the content at the
cache file path. -/
def CacheState.save (st : CacheState) (p content : String) : CacheState :=
  { st with files := (p, content) :: st.files }

/-- Modelled from the spec: `cache.open()` — a readable handle onto the cache
file, i.e. its content. -/
def CacheState.read (st : CacheState) (p : String) : Option String :=
  st.files.lookup p

/-- The observable outcome of one `fetch_data` call: the returned content
handle (or `None`), the cache state afterwards, and how many network
retrievals were attempted. -/
structure FetchResult where
  data : Option String
  state : CacheState
  netCalls : Nat
  deriving DecidableEq, Repr

/-- `fetch_data(url, cache_file_path)`: with a truthy cache path, ensure the
cache directory exists, download only when the cache file is absent, save only
a successful download, and return a handle exactly when the cache file exists
afterwards; with no cache path, just download. -/
def fetch_data (net : Network) (url : String) (cache_file_path : Option String)
    (st : CacheState) : FetchResult :=
  match cache_file_path with
  | some p =>
    if p.isEmpty then
      ⟨download net url, st, 1⟩
    else
      let st1 := if st.dir_exists p then st else st.create_dir p
      let step :=
        if st1.file_exists p then (st1, 0)
        else
          match download net url with
          | some d => (st1.save p d, 1)
          | none => (st1, 1)
      if step.1.file_exists p then ⟨step.1.read p, step.1, step.2⟩
      else ⟨none, step.1, step.2⟩
  | none => ⟨download net url, st, 1⟩

/-- `models.Table` restricted to the fields `get_table` inspects: the table
number, the publication date (already projected through `.date()`), and the
source URL.  The currency positions play no role in the resolution logic. -/
structure Table where
  no : String
  publication_date : Date
  url : Option String
  deriving DecidableEq, Repr

/-- Strict `<` on dates, as Python compares `datetime.date` values. -/
def Date.ltb (a b : Date) : Bool :=
  a.year < b.year
    || (a.year == b.year
        && (a.month < b.month || (a.month == b.month && a.day < b.day)))

/-- The parser collaborator: `parse(file_, url=url)` consumes the fetched
content and the source URL and either returns a `Table` or raises (a
`ParseFailure`, e.g. from `minidom` or `strptime`). -/
abbrev Parser := String → String → Except PyError Table

/-- The observable outcome of one `get_table` call: the returned table (or
`None`, or the exception that escaped), the cache state afterwards, the number
of fetch attempts, and how many content handles were opened and closed. -/
structure ResolveResult where
  result : Except PyError (Option Table)
  state : CacheState
  fetchAttempts : Nat
  handlesOpened : Nat
  handlesClosed : Nat
  deriving DecidableEq, Repr

/-- The `for url, cache_file_path in urlsgen` loop of `get_table`: fetch each
candidate; on content, parse it (an exception escapes with the handle still
open), close the handle, and return the table unless its publication date is
after the queried date; with no content, move to the next candidate; return
`None` when the candidates run out. -/
def get_table_loop (net : Network) (parseFn : Parser) (d : Date)
    (locs : List ResourceLocation) (st : CacheState) : ResolveResult :=
  match locs with
  | [] => ⟨.ok none, st, 0, 0, 0⟩
  | (url, cache_file_path) :: rest =>
    let fr := fetch_data net url cache_file_path st
    match fr.data with
    | some content =>
      match parseFn content url with
      | .error e => ⟨.error e, fr.state, 1, 1, 0⟩
      | .ok table =>
        if !(Date.ltb d table.publication_date) then
          ⟨.ok (some table), fr.state, 1, 1, 1⟩
        else
          let r := get_table_loop net parseFn d rest fr.state
          ⟨r.result, r.state, r.fetchAttempts + 1, r.handlesOpened + 1,
            r.handlesClosed + 1⟩
    | none =>
      let r := get_table_loop net parseFn d rest fr.state
      ⟨r.result, r.state, r.fetchAttempts + 1, r.handlesOpened, r.handlesClosed⟩

/-- `get_table(date, table_type, cache_dir=None)`: compute the starting
publication number, generate the 15 candidate locations, and run the search
loop.  A `calculate_number` exception escapes before any fetch.  (The Python
generator is lazy, but its only possible exception is the initial
`calculate_number` failure, which here too precedes every fetch, so the eager
candidate list is observationally equivalent.) -/
def get_table (net : Network) (parseFn : Parser) (d : Date)
    (table_type : String) (cache_dir : Option String) (st : CacheState) :
    ResolveResult :=
  match calculate_number d table_type with
  | .error e => ⟨.error e, st, 0, 0, 0⟩
  | .ok n =>
    match gen_urls d.year (n : Int) table_type 15 cache_dir with
    | .error e => ⟨.error e, st, 0, 0, 0⟩
    | .ok locs => get_table_loop net parseFn d locs st

/-- The coordinate sequence behind `gen_urls`: the same recursion, yielding
the `(year, pub_number)` pair passed to `build_url` at each step. -/
def gen_coords (year : Int) (pub_number : Int) (table_type : String)
    (gen_number : Nat) : Except PyError (List (Int × Int)) :=
  match gen_number with
  | 0 => .ok []
  | n + 1 =>
    if pub_number == 0 then
      let previous_year_date := prevYearLastDay year
      match calculate_number previous_year_date table_type with
      | .error e => .error e
      | .ok k =>
        match gen_coords previous_year_date.year ((k : Int) - 1) table_type n with
        | .error e => .error e
        | .ok rest => .ok ((previous_year_date.year, (k : Int)) :: rest)
    else
      match gen_coords year (pub_number - 1) table_type n with
      | .error e => .error e
      | .ok rest => .ok ((year, pub_number) :: rest)

/-- 1 when the resolution escaped with an exception, 0 otherwise. -/
def errFlag : Except PyError (Option Table) → Nat
  | .error _ => 1
  | .ok _ => 0

-- CONCRETE COLLABORATORS FOR CONCRETE RUNS ----------------------------------

/-- A network that answers every URL with HTTP 200 and the given body. -/
def mockNet (body : String) : Network := fun _ => .response 200 body

/-- A network where every GET fails at the transport level. -/
def mockNetDown : Network := fun _ => .transportError

/-- A parser that always succeeds, dating every publication `dt`. -/
def mockParse (dt : Date) : Parser := fun _ url => .ok ⟨"1", dt, some url⟩

/-- A parser that always raises a `ParseFailure`. -/
def mockParseFail : Parser := fun _ _ => .error .parseFailure

/-- An empty cache tree. -/
def emptyCache : CacheState := ⟨[], []⟩

set_option maxRecDepth 100000

-- HELPER LEMMAS --------------------------------------------------------------

theorem calculate_number_a (d : Date) :
    calculate_number d "a" = .ok (count_working_days d) := rfl

theorem calculate_number_b (d : Date) :
    calculate_number d "b" = .ok (count_wednesdays d) := rfl

theorem calculate_number_not_mem (d : Date) (t : String) (ht : t ∉ TABLE_TYPES) :
    calculate_number d t = .error .assertionError := by
  simp [calculate_number, ht]

theorem calculate_number_mem (d : Date) (t : String) (ht : t ∈ TABLE_TYPES) :
    ∃ k, calculate_number d t = .ok k := by
  simp only [TABLE_TYPES, List.mem_cons, List.mem_singleton, List.not_mem_nil,
    or_false] at ht
  rcases ht with rfl | rfl
  · exact ⟨_, calculate_number_a d⟩
  · exact ⟨_, calculate_number_b d⟩

theorem gen_urls_ok (t : String) (ht : t ∈ TABLE_TYPES) :
    ∀ (n : Nat) (year pubn : Int) (cd : Option String),
      ∃ l, gen_urls year pubn t n cd = .ok l ∧ l.length = n := by
  intro n
  induction n with
  | zero => exact fun year pubn cd => ⟨[], rfl, rfl⟩
  | succ n ih =>
    intro year pubn cd
    by_cases h : pubn = 0
    · subst h
      obtain ⟨k, hk⟩ := calculate_number_mem (prevYearLastDay year) t ht
      obtain ⟨l, hl, hlen⟩ := ih (prevYearLastDay year).year ((k : Int) - 1) cd
      refine ⟨build_url (prevYearLastDay year).year (k : Int) t cd :: l, ?_, ?_⟩
      · rw [gen_urls, if_pos (by simp)]
        simp only [hk, hl]
      · simp [hlen]
    · obtain ⟨l, hl, hlen⟩ := ih year (pubn - 1) cd
      refine ⟨build_url year pubn t cd :: l, ?_, ?_⟩
      · rw [gen_urls, if_neg (by simp [h])]
        simp only [hl]
      · simp [hlen]

theorem get_table_loop_attempts (net : Network) (parseFn : Parser) (d : Date) :
    ∀ (locs : List ResourceLocation) (st : CacheState),
      (get_table_loop net parseFn d locs st).fetchAttempts ≤ locs.length := by
  intro locs
  induction locs with
  | nil => intro st; simp [get_table_loop]
  | cons loc rest ih =>
    intro st
    obtain ⟨url, cfp⟩ := loc
    rw [get_table_loop]
    rcases hd : (fetch_data net url cfp st).data with _ | c
    · simp only [hd, List.length_cons]
      exact Nat.succ_le_succ (ih _)
    · simp only [hd, List.length_cons]
      split
      · simp
      · split
        · simp
        · exact Nat.succ_le_succ (ih _)

theorem get_table_loop_acceptance (net : Network) (parseFn : Parser) (d : Date) :
    ∀ (locs : List ResourceLocation) (st : CacheState) (tbl : Table),
      (get_table_loop net parseFn d locs st).result = .ok (some tbl) →
      Date.ltb d tbl.publication_date = false := by
  intro locs
  induction locs with
  | nil =>
    intro st tbl h
    simp [get_table_loop] at h
  | cons loc rest ih =>
    intro st tbl h
    obtain ⟨url, cfp⟩ := loc
    rw [get_table_loop] at h
    rcases hd : (fetch_data net url cfp st).data with _ | c <;> simp only [hd] at h
    · exact ih _ _ h
    · split at h
      · cases h
      · rename_i t0 hacc
        split at h
        · rename_i hacc2
          simp only at h
          cases h
          simpa using hacc2
        · exact ih _ _ h

theorem get_table_loop_handles (net : Network) (parseFn : Parser) (d : Date) :
    ∀ (locs : List ResourceLocation) (st : CacheState),
      (get_table_loop net parseFn d locs st).handlesOpened =
        (get_table_loop net parseFn d locs st).handlesClosed +
          errFlag (get_table_loop net parseFn d locs st).result := by
  intro locs
  induction locs with
  | nil => intro st; rfl
  | cons loc rest ih =>
    intro st
    obtain ⟨url, cfp⟩ := loc
    rw [get_table_loop]
    rcases hd : (fetch_data net url cfp st).data with _ | c <;> simp only [hd]
    · simpa using ih _
    · split
      · rfl
      · split
        · rfl
        · have := ih (fetch_data net url cfp st).state
          simp only []
          omega

theorem get_table_eq_loop (net : Network) (parseFn : Parser) (d : Date)
    (t : String) (cd : Option String) (st : CacheState) (k : Nat)
    (l : List ResourceLocation) (hk : calculate_number d t = .ok k)
    (hl : gen_urls d.year (k : Int) t 15 cd = .ok l) :
    get_table net parseFn d t cd st = get_table_loop net parseFn d l st := by
  rw [get_table]
  simp only [hk, hl]

-- CLAIM THEOREMS --------------------------------------------------------------

/-- C1: for every date and table type, `get_table` never returns a table whose
publication date is strictly after the queried date, and the first candidate
that fetches, parses, and satisfies `publication_date ≤ date` is returned
immediately (one fetch, no further candidates). -/
theorem get_table_acceptance (net : Network) (parseFn : Parser) (d : Date)
    (t : String) (cd : Option String) (st : CacheState) :
    (∀ tbl, (get_table net parseFn d t cd st).result = .ok (some tbl) →
       Date.ltb d tbl.publication_date = false)
  ∧ (∀ url cfp rest c tbl,
       (fetch_data net url cfp st).data = some c →
       parseFn c url = .ok tbl →
       Date.ltb d tbl.publication_date = false →
       get_table_loop net parseFn d ((url, cfp) :: rest) st =
         ⟨.ok (some tbl), (fetch_data net url cfp st).state, 1, 1, 1⟩) := by
  constructor
  · intro tbl h
    rw [get_table] at h
    split at h
    · simp at h
    · split at h
      · simp at h
      · exact get_table_loop_acceptance net parseFn d _ _ _ h
  · intro url cfp rest c tbl hd hp hacc
    rw [get_table_loop]
    simp [hd, hp, hacc]

/-- C1 witness: a concrete accepted run — publication dated 2012-06-14 queried
at 2012-06-15 is accepted (its date does not exceed the queried date). -/
theorem get_table_acceptance_witness :
    Date.ltb ⟨2012, 6, 15⟩ ⟨2012, 6, 14⟩ = false :=
  (get_table_acceptance (mockNet "x") (mockParse ⟨2012, 6, 14⟩) ⟨2012, 6, 15⟩
      "a" none emptyCache).1
    ⟨"1", ⟨2012, 6, 14⟩, some "http://rss.nbp.pl/kursy/xml2/2012/a/12a120.xml"⟩
    (by decide)

/-- C2: the backward sequencer rolls the year over exactly when the current
publication number is 0: the step moves to December 31 of the previous year,
recomputes the number through the Calculator with the same table type, and
emits that coordinate; a nonzero number never triggers a rollover; started at
(2013, 0, B) the first yield is year 2012 with number
`calculate(date(2012,12,31), B) = 52`. -/
theorem gen_urls_rollover (year pubn : Int) (t : String) (n : Nat)
    (cd : Option String) (ht : t ∈ TABLE_TYPES) :
    (∃ k rest, calculate_number (prevYearLastDay year) t = .ok k ∧
       gen_urls year 0 t (n + 1) cd =
         .ok (build_url (year - 1) (k : Int) t cd :: rest))
  ∧ (pubn ≠ 0 →
       ∃ rest, gen_urls year pubn t (n + 1) cd =
         .ok (build_url year pubn t cd :: rest))
  ∧ (∃ rest, calculate_number ⟨2012, 12, 31⟩ "b" = .ok 52 ∧
       gen_urls 2013 0 "b" 15 none =
         .ok (("http://rss.nbp.pl/kursy/xml2/2012/b/12b052.xml", none) :: rest) ∧
       build_url 2012 (52 : Int) "b" none =
         ("http://rss.nbp.pl/kursy/xml2/2012/b/12b052.xml", none)) := by
  refine ⟨?_, ?_, ?_⟩
  · obtain ⟨k, hk⟩ := calculate_number_mem (prevYearLastDay year) t ht
    obtain ⟨l, hl, _⟩ := gen_urls_ok t ht n (prevYearLastDay year).year ((k : Int) - 1) cd
    refine ⟨k, l, hk, ?_⟩
    rw [gen_urls, if_pos (by simp)]
    simp only [prevYearLastDay] at hk hl ⊢
    simp only [hk, hl]
  · intro h
    obtain ⟨l, hl, _⟩ := gen_urls_ok t ht n year (pubn - 1) cd
    refine ⟨l, ?_⟩
    rw [gen_urls, if_neg (by simp [h])]
    simp only [hl]
  · refine ⟨((gen_urls 2013 0 "b" 15 none).toOption.getD []).tail, by decide, by decide,
      by decide⟩

/-- C2 witness: the rollover theorem applied at a concrete nonzero coordinate
(2013, 5, B): no rollover happens, the first yield keeps the coordinate. -/
theorem gen_urls_rollover_witness :
    ∃ rest, gen_urls 2013 5 "b" (3 + 1) none =
      .ok (build_url 2013 5 "b" none :: rest) :=
  (gen_urls_rollover 2013 5 "b" 3 none (by decide)).2.1 (by decide)

/-- C3: with the default budget of 15, the sequencer yields exactly 15
locations for every starting coordinate (with a recognized table type), and
`get_table` performs at most 15 fetch attempts; termination is by the budget
alone, independent of the acceptance test. -/
theorem gen_urls_budget_termination (year pubn : Int) (t : String)
    (cd : Option String) (net : Network) (parseFn : Parser) (d : Date)
    (st : CacheState) (ht : t ∈ TABLE_TYPES) :
    (∃ l, gen_urls year pubn t 15 cd = .ok l ∧ l.length = 15)
  ∧ (get_table net parseFn d t cd st).fetchAttempts ≤ 15 := by
  refine ⟨gen_urls_ok t ht 15 year pubn cd, ?_⟩
  obtain ⟨k, hk⟩ := calculate_number_mem d t ht
  obtain ⟨l, hl, hlen⟩ := gen_urls_ok t ht 15 d.year (k : Int) cd
  rw [get_table_eq_loop net parseFn d t cd st k l hk hl]
  have h := get_table_loop_attempts net parseFn d l st
  omega

/-- C3 witness: the budget theorem applied at the concrete coordinate
(2013, 0, B) with an always-failing network and a cache-less run. -/
theorem gen_urls_budget_termination_witness :
    (∃ l, gen_urls 2013 0 "b" 15 none = .ok l ∧ l.length = 15)
  ∧ (get_table mockNetDown (mockParse ⟨2012, 1, 1⟩) ⟨2013, 1, 2⟩ "b" none
       emptyCache).fetchAttempts ≤ 15 :=
  gen_urls_budget_termination 2013 0 "b" none mockNetDown
    (mockParse ⟨2012, 1, 1⟩) ⟨2013, 1, 2⟩ emptyCache (by decide)

theorem create_dir_file_exists (st : CacheState) (p q : String) :
    (st.create_dir p).file_exists q = st.file_exists q := rfl

theorem create_dir_read (st : CacheState) (p q : String) :
    (st.create_dir p).read q = st.read q := rfl

theorem create_dir_dir_exists_self (st : CacheState) (p : String) :
    (st.create_dir p).dir_exists p = true := by
  simp [CacheState.create_dir, CacheState.dir_exists]

theorem save_dir_exists (st : CacheState) (p c q : String) :
    (st.save p c).dir_exists q = st.dir_exists q := rfl

theorem save_file_exists_self (st : CacheState) (p c : String) :
    (st.save p c).file_exists p = true := by
  simp [CacheState.save, CacheState.file_exists, List.lookup]

theorem save_read_self (st : CacheState) (p c : String) :
    (st.save p c).read p = some c := by
  simp [CacheState.save, CacheState.read, List.lookup]

theorem ensured_dir_file_exists (st : CacheState) (p q : String) :
    ((if st.dir_exists p then st else st.create_dir p) : CacheState).file_exists q
      = st.file_exists q := by
  split <;> rfl

theorem ensured_dir_read (st : CacheState) (p q : String) :
    ((if st.dir_exists p then st else st.create_dir p) : CacheState).read q
      = st.read q := by
  split <;> rfl

theorem ensured_dir_dir_exists_self (st : CacheState) (p : String) :
    ((if st.dir_exists p then st else st.create_dir p) : CacheState).dir_exists p
      = true := by
  by_cases hd : st.dir_exists p
  · simp [hd]
  · simp [hd, create_dir_dir_exists_self]

theorem fetch_data_eq (net : Network) (url p : String) (st : CacheState)
    (hp : p.isEmpty = false) :
    fetch_data net url (some p) st =
      (let st1 := if st.dir_exists p then st else st.create_dir p
       if st.file_exists p then ⟨st.read p, st1, 0⟩
       else
         match download net url with
         | some dcontent => ⟨some dcontent, st1.save p dcontent, 1⟩
         | none => ⟨none, st1, 1⟩) := by
  rw [fetch_data]
  simp only [hp, Bool.false_eq_true, if_false]
  by_cases he : st.file_exists p
  · simp only [ensured_dir_file_exists, he, if_true]
    simp [ensured_dir_read]
  · simp only [ensured_dir_file_exists, he, if_false, Bool.false_eq_true]
    rcases hdl : download net url with _ | dcontent
    · simp [ensured_dir_file_exists, he]
    · simp [save_file_exists_self, save_read_self]

theorem read_isSome (st : CacheState) (p : String) :
    (st.read p).isSome = st.file_exists p := rfl

/-- C4: with a cache path present (truthy), `fetch_data` ensures the cache
directory exists; it attempts exactly one network retrieval when the cache
file is absent and none when it is present; a successful download is
persisted and a failed one is not; it returns a readable handle exactly when
the cache file exists afterwards; a network failure degrades to an absent
result instead of escalating; and a second call with the same pair after a
call that returned content performs no network call. -/
theorem fetch_data_cache_protocol (net : Network) (url p : String)
    (st : CacheState) (hp : p.isEmpty = false) :
    ((fetch_data net url (some p) st).state.dir_exists p = true)
  ∧ ((fetch_data net url (some p) st).netCalls =
       if st.file_exists p then 0 else 1)
  ∧ ((fetch_data net url (some p) st).state.file_exists p =
       (st.file_exists p || (download net url).isSome))
  ∧ ((fetch_data net url (some p) st).data.isSome =
       (fetch_data net url (some p) st).state.file_exists p)
  ∧ (download net url = none →
       (fetch_data net url (some p) st).data.isSome = st.file_exists p)
  ∧ ((fetch_data net url (some p) st).data.isSome = true →
       (fetch_data net url (some p)
         ((fetch_data net url (some p) st).state)).netCalls = 0) := by
  rw [fetch_data_eq net url p st hp]
  by_cases he : st.file_exists p
  · simp only [he, if_true]
    refine ⟨ensured_dir_dir_exists_self st p, trivial, ?_, ?_, ?_, ?_⟩
    · simp [ensured_dir_file_exists, he]
    · simp [ensured_dir_file_exists, he, read_isSome]
    · intro _
      simp [read_isSome, he]
    · intro _
      rw [fetch_data_eq net url p _ hp]
      simp [ensured_dir_file_exists, he]
  · simp only [he, if_false, Bool.false_eq_true]
    rcases hdl : download net url with _ | dc
    · simp only []
      refine ⟨ensured_dir_dir_exists_self st p, by simp [he], ?_, ?_, ?_, ?_⟩
      · simp [ensured_dir_file_exists, he]
      · simp [ensured_dir_file_exists, he]
      · intro _; simp [he]
      · intro h; simp at h
    · simp only []
      refine ⟨?_, by simp [he], ?_, ?_, ?_, ?_⟩
      · rw [save_dir_exists]
        exact ensured_dir_dir_exists_self st p
      · simp [save_file_exists_self]
      · simp [save_file_exists_self]
      · intro h; simp at h
      · intro _
        rw [fetch_data_eq net url p _ hp]
        simp [save_file_exists_self]

/-- C4 witness: the protocol theorem applied to a concrete url, cache path and
empty cache. -/
theorem fetch_data_cache_protocol_witness :
    ((fetch_data (mockNet "x") "u" (some "c/f.xml") emptyCache).state.dir_exists
       "c/f.xml" = true)
  ∧ ((fetch_data (mockNet "x") "u" (some "c/f.xml") emptyCache).netCalls =
       if emptyCache.file_exists "c/f.xml" then 0 else 1)
  ∧ ((fetch_data (mockNet "x") "u" (some "c/f.xml") emptyCache).state.file_exists
       "c/f.xml" =
       (emptyCache.file_exists "c/f.xml" || (download (mockNet "x") "u").isSome))
  ∧ ((fetch_data (mockNet "x") "u" (some "c/f.xml") emptyCache).data.isSome =
       (fetch_data (mockNet "x") "u" (some "c/f.xml") emptyCache).state.file_exists
         "c/f.xml")
  ∧ (download (mockNet "x") "u" = none →
       (fetch_data (mockNet "x") "u" (some "c/f.xml") emptyCache).data.isSome =
         emptyCache.file_exists "c/f.xml")
  ∧ ((fetch_data (mockNet "x") "u" (some "c/f.xml") emptyCache).data.isSome = true →
       (fetch_data (mockNet "x") "u" (some "c/f.xml")
         ((fetch_data (mockNet "x") "u" (some "c/f.xml") emptyCache).state)).netCalls
         = 0) :=
  fetch_data_cache_protocol (mockNet "x") "u" "c/f.xml" emptyCache (by decide)

/-- C5: a `ParseFailure` on a successfully fetched candidate propagates and
aborts the entire resolution for that table type — the corrupt publication is
not skipped in favor of an earlier one — whereas a fetch that yields no
content merely advances the search to the next candidate. -/
theorem parse_failure_aborts_resolution (net : Network) (parseFn : Parser)
    (d : Date) (t : String) (cd : Option String) (st : CacheState) (k : Nat)
    (url : String) (cfp : Option String) (rest : List ResourceLocation)
    (c : String) (e : PyError)
    (hk : calculate_number d t = .ok k)
    (hgen : gen_urls d.year (k : Int) t 15 cd = .ok ((url, cfp) :: rest)) :
    ((fetch_data net url cfp st).data = some c →
       parseFn c url = .error e →
       get_table net parseFn d t cd st =
         ⟨.error e, (fetch_data net url cfp st).state, 1, 1, 0⟩)
  ∧ ((fetch_data net url cfp st).data = none →
       get_table net parseFn d t cd st =
         ⟨(get_table_loop net parseFn d rest (fetch_data net url cfp st).state).result,
          (get_table_loop net parseFn d rest (fetch_data net url cfp st).state).state,
          (get_table_loop net parseFn d rest
            (fetch_data net url cfp st).state).fetchAttempts + 1,
          (get_table_loop net parseFn d rest
            (fetch_data net url cfp st).state).handlesOpened,
          (get_table_loop net parseFn d rest
            (fetch_data net url cfp st).state).handlesClosed⟩) := by
  rw [get_table_eq_loop net parseFn d t cd st k _ hk hgen]
  constructor
  · intro hd hp
    rw [get_table_loop]
    simp [hd, hp]
  · intro hd
    rw [get_table_loop]
    simp [hd]

/-- C5 witness: a concrete run whose first candidate fetches but fails to
parse — the whole resolution aborts with the `ParseFailure` after exactly one
fetch, with the handle left open. -/
theorem parse_failure_aborts_resolution_witness :
    get_table (mockNet "x") mockParseFail ⟨2012, 6, 15⟩ "a" none emptyCache =
      ⟨.error .parseFailure,
       (fetch_data (mockNet "x")
         "http://rss.nbp.pl/kursy/xml2/2012/a/12a120.xml" none emptyCache).state,
       1, 1, 0⟩ :=
  (parse_failure_aborts_resolution (mockNet "x") mockParseFail ⟨2012, 6, 15⟩
      "a" none emptyCache 120 "http://rss.nbp.pl/kursy/xml2/2012/a/12a120.xml"
      none ((List.range 14).map (fun i => build_url 2012 (119 - (i : Int)) "a" none))
      "x" .parseFailure (by decide) (by decide)).1 (by decide) rfl

/-- C6 counterexample: the table type 'A' matches a recognized variant
case-insensitively (`pyLower "A" = "a"` is in `TABLE_TYPES`), yet
`calculate_number` does not dispatch for it — the case-sensitive
`assert table_type in TABLE_TYPES` raises first. -/
theorem calculate_number_case_cex :
    pyLower "A" ∈ TABLE_TYPES
  ∧ calculate_number ⟨2012, 6, 15⟩ "A" = .error .assertionError
  ∧ calculate_number ⟨2012, 6, 15⟩ "A" ≠
      .ok (count_working_days ⟨2012, 6, 15⟩) := by decide

/-- C6 (amended): table types are matched case-sensitively against the exact
lowercase forms 'a' and 'b'; any other string — even one that matches
case-insensitively — makes `calculate_number` fail fast with the assert
(UnknownTableType-class) error, and `get_table` then fails before any network
activity (zero fetch attempts, cache untouched); for 'a' and 'b' the
Calculator dispatches to the matching day-counter rule. -/
theorem calculate_number_dispatch (d : Date) (t : String) (net : Network)
    (parseFn : Parser) (cd : Option String) (st : CacheState)
    (ht : t ∉ TABLE_TYPES) :
    calculate_number d "a" = .ok (count_working_days d)
  ∧ calculate_number d "b" = .ok (count_wednesdays d)
  ∧ calculate_number d t = .error .assertionError
  ∧ get_table net parseFn d t cd st = ⟨.error .assertionError, st, 0, 0, 0⟩ := by
  refine ⟨calculate_number_a d, calculate_number_b d,
    calculate_number_not_mem d t ht, ?_⟩
  rw [get_table]
  simp only [calculate_number_not_mem d t ht]

/-- C6 witness: the dispatch theorem applied at the unrecognized table type
string 'c'. -/
theorem calculate_number_dispatch_witness :
    calculate_number ⟨2012, 6, 15⟩ "a" = .ok (count_working_days ⟨2012, 6, 15⟩)
  ∧ calculate_number ⟨2012, 6, 15⟩ "b" = .ok (count_wednesdays ⟨2012, 6, 15⟩)
  ∧ calculate_number ⟨2012, 6, 15⟩ "c" = .error .assertionError
  ∧ get_table (mockNet "x") (mockParse ⟨2012, 1, 1⟩) ⟨2012, 6, 15⟩ "c" none
      emptyCache = ⟨.error .assertionError, emptyCache, 0, 0, 0⟩ :=
  calculate_number_dispatch ⟨2012, 6, 15⟩ "c" (mockNet "x")
    (mockParse ⟨2012, 1, 1⟩) none emptyCache (by decide)

/-- C7 counterexample: with a network that returns content and a parser that
always fails, the run opens one content handle and closes none — on the
parse-failure path the handle is not released, because `data.close()` is only
reached after `parse` returns. -/
theorem get_table_handle_leak_cex :
    (get_table (mockNet "x") mockParseFail ⟨2012, 6, 15⟩ "a" none
       emptyCache).handlesOpened = 1
  ∧ (get_table (mockNet "x") mockParseFail ⟨2012, 6, 15⟩ "a" none
       emptyCache).handlesClosed = 0
  ∧ (get_table (mockNet "x") mockParseFail ⟨2012, 6, 15⟩ "a" none
       emptyCache).result = .error .parseFailure := by decide

/-- C7 (amended): on the accepted-publication and rejected-date paths every
opened content handle is closed (whenever resolution returns normally,
closed = opened); but when a parse failure escapes, exactly the handle being
parsed is left unclosed (opened = closed + 1). -/
theorem get_table_handle_close (net : Network) (parseFn : Parser) (d : Date)
    (t : String) (cd : Option String) (st : CacheState)
    (ht : t ∈ TABLE_TYPES) :
    (get_table net parseFn d t cd st).handlesOpened =
      (get_table net parseFn d t cd st).handlesClosed +
        errFlag (get_table net parseFn d t cd st).result := by
  obtain ⟨k, hk⟩ := calculate_number_mem d t ht
  obtain ⟨l, hl, _⟩ := gen_urls_ok t ht 15 d.year (k : Int) cd
  rw [get_table_eq_loop net parseFn d t cd st k l hk hl]
  exact get_table_loop_handles net parseFn d l st

/-- C7 witness: the handle-accounting theorem applied to a concrete accepted
run. -/
theorem get_table_handle_close_witness :
    (get_table (mockNet "x") (mockParse ⟨2012, 6, 14⟩) ⟨2012, 6, 15⟩ "a" none
       emptyCache).handlesOpened =
      (get_table (mockNet "x") (mockParse ⟨2012, 6, 14⟩) ⟨2012, 6, 15⟩ "a" none
         emptyCache).handlesClosed +
        errFlag (get_table (mockNet "x") (mockParse ⟨2012, 6, 14⟩) ⟨2012, 6, 15⟩
          "a" none emptyCache).result :=
  get_table_handle_close (mockNet "x") (mockParse ⟨2012, 6, 14⟩) ⟨2012, 6, 15⟩
    "a" none emptyCache (by decide)

/-- C8: `build_url` zero-pads the publication number to exactly 3 digits and
never truncates: 4 ↦ a004.xml, 123 ↦ a123.xml, 1234 ↦ a1234.xml (numbers of
four or more digits simply widen the field); in general the padded number is
the decimal text left-filled with zeros, and the URL always ends with the
padded number followed by `.xml`. -/
theorem build_url_padding :
    ("a004.xml".data <:+ (build_url 2012 4 "a" none).1.data)
  ∧ ("a123.xml".data <:+ (build_url 2012 123 "a" none).1.data)
  ∧ ("a1234.xml".data <:+ (build_url 2012 1234 "a" none).1.data)
  ∧ (∀ s : String, (strRjust s 3 '0').data =
       List.replicate (3 - s.length) '0' ++ s.data)
  ∧ (∀ (year pubn : Int) (t : String) (cd : Option String),
       ((strRjust (toString pubn) 3 '0').data ++ ".xml".data) <:+
         (build_url year pubn t cd).1.data) := by
  refine ⟨by decide, by decide, by decide, ?_, ?_⟩
  · intro s
    by_cases h : 3 ≤ s.length
    · simp [strRjust, h, Nat.sub_eq_zero_of_le h]
    · simp [strRjust, h]
  · intro year pubn t cd
    refine ⟨(NBP_CURRENCY_TABLE_URL_PREFIX ++ (toString year ++ "/" ++ t ++ "/"
      ++ (toString year).drop 2 ++ t)).data, ?_⟩
    simp [build_url, urlPath, List.append_assoc]

/-- C9: with a truthy cache root, the cache path of `build_url` is the cache
root joined with exactly the same `<year>/<tableType>/<file>.xml` path suffix
that follows the fixed prefix in the URL (a 1:1 mirror of the remote layout);
with no cache root the cache path is absent. -/
theorem build_url_cache_mirror (year pubn : Int) (t : String) (cd : String)
    (hcd : cd.isEmpty = false) :
    (build_url year pubn t (some cd)).2 =
      some (osPathJoin cd
        (urlPath year t ((toString year).drop 2) (strRjust (toString pubn) 3 '0')))
  ∧ (build_url year pubn t (some cd)).1 =
      NBP_CURRENCY_TABLE_URL_PREFIX ++
        urlPath year t ((toString year).drop 2) (strRjust (toString pubn) 3 '0')
  ∧ (build_url year pubn t none).2 = none := by
  refine ⟨?_, rfl, rfl⟩
  simp [build_url, hcd]

/-- C9 witness: the mirror theorem applied at (2012, 123, 'a') with cache root
`/h/.nbp`. -/
theorem build_url_cache_mirror_witness :
    (build_url 2012 123 "a" (some "/h/.nbp")).2 =
      some (osPathJoin "/h/.nbp"
        (urlPath 2012 "a" ((toString (2012 : Int)).drop 2)
          (strRjust (toString (123 : Int)) 3 '0')))
  ∧ (build_url 2012 123 "a" (some "/h/.nbp")).1 =
      NBP_CURRENCY_TABLE_URL_PREFIX ++
        urlPath 2012 "a" ((toString (2012 : Int)).drop 2)
          (strRjust (toString (123 : Int)) 3 '0')
  ∧ (build_url 2012 123 "a" none).2 = none :=
  build_url_cache_mirror 2012 123 "a" "/h/.nbp" (by decide)

theorem exists_mod_hit (a : Int) : ∃ i : Nat, i < 7 ∧ (a + (i : Int)) % 7 = 3 := by
  refine ⟨((3 - a) % 7).toNat, ?_, ?_⟩ <;> omega

theorem countP_wed_pos (a : Int) (N : Nat) (hN : 7 ≤ N) :
    0 < ((List.range N).map (fun i : Nat => a + (i : Int))).countP
      (fun n => n % 7 == 3) := by
  obtain ⟨i, hi, hmod⟩ := exists_mod_hit a
  rw [List.countP_pos_iff]
  have hmem : (a + (i : Int)) ∈ (List.range N).map (fun j : Nat => a + (j : Int)) :=
    List.mem_map_of_mem (fun j : Nat => a + (j : Int))
      (List.mem_range.2 (lt_of_lt_of_le hi hN))
  refine ⟨a + (i : Int), hmem, ?_⟩
  simp [hmod]

theorem count_wednesdays_pos_dec31 (y : Int) : 1 ≤ count_wednesdays ⟨y, 12, 31⟩ := by
  have hdy : dayOfYear ⟨y, 12, 31⟩ =
      ((List.range 11).map (fun i => daysInMonth y (i + 1))).sum + 31 := rfl
  have h7 : 7 ≤ dayOfYear ⟨y, 12, 31⟩ := by omega
  have h := countP_wed_pos (rataDie ⟨y, 1, 1⟩) (dayOfYear ⟨y, 12, 31⟩) h7
  simp only [count_wednesdays]
  omega

theorem gen_urls_eq_coords (t : String) (cd : Option String) :
    ∀ (n : Nat) (year pubn : Int),
      gen_urls year pubn t n cd =
        (gen_coords year pubn t n).map
          (fun l => l.map (fun c => build_url c.1 c.2 t cd)) := by
  intro n
  induction n with
  | zero => intro year pubn; rfl
  | succ n ih =>
    intro year pubn
    rw [gen_urls, gen_coords]
    by_cases h : (pubn == 0) = true
    · rw [if_pos h, if_pos h]
      rcases hk : calculate_number (prevYearLastDay year) t with e | k
      · simp [hk, Except.map]
      · simp only [hk, ih]
        rcases hg : gen_coords (prevYearLastDay year).year ((k : Int) - 1) t n
          with e | rest
        · simp [hg, Except.map]
        · simp [hg, Except.map]
    · rw [if_neg h, if_neg h]
      simp only [ih]
      rcases hg : gen_coords year (pubn - 1) t n with e | rest
      · simp [hg, Except.map]
      · simp [hg, Except.map]

theorem gen_coords_positive (t : String)
    (hcalc : ∀ (y : Int) (k : Nat),
      calculate_number ⟨y, 12, 31⟩ t = .ok k → 1 ≤ k) :
    ∀ (n : Nat) (year pubn : Int), 0 ≤ pubn →
      ∀ l, gen_coords year pubn t n = .ok l → ∀ c ∈ l, 1 ≤ c.2 := by
  intro n
  induction n with
  | zero =>
    intro year pubn hp l hl c hc
    cases hl
    exact absurd hc (List.not_mem_nil c)
  | succ n ih =>
    intro year pubn hp l hl c hc
    rw [gen_coords] at hl
    by_cases h : (pubn == 0) = true
    · rw [if_pos h] at hl
      rcases hk : calculate_number (prevYearLastDay year) t with e | k
      · simp only [hk] at hl
        exact Except.noConfusion hl
      · simp only [hk] at hl
        rcases hg : gen_coords (prevYearLastDay year).year ((k : Int) - 1) t n
          with e | rest
        · simp only [hg] at hl
          exact Except.noConfusion hl
        · simp only [hg] at hl
          cases hl
          have h1 : 1 ≤ k := hcalc (year - 1) k hk
          rcases List.mem_cons.1 hc with rfl | hc2
          · show 1 ≤ (k : Int)
            omega
          · exact ih (prevYearLastDay year).year ((k : Int) - 1) (by omega)
              rest hg c hc2
    · rw [if_neg h] at hl
      rcases hg : gen_coords year (pubn - 1) t n with e | rest
      · simp only [hg] at hl
        exact Except.noConfusion hl
      · simp only [hg] at hl
        cases hl
        rcases List.mem_cons.1 hc with rfl | hc2
        · show 1 ≤ pubn
          simp only [beq_iff_eq] at h
          omega
        · exact ih year (pubn - 1) (by simp only [beq_iff_eq] at h; omega)
            rest hg c hc2

/-- C10: provided the Calculator yields a positive number for December 31 of
every prior year, every location `gen_urls` yields carries a publication
number of at least 1 — the value 0 is only the internal start-of-year
sentinel consumed by the rollover and is never emitted: the emitted locations
are exactly `build_url` applied to the coordinate sequence, and every
coordinate in that sequence has a positive publication number. -/
theorem gen_urls_positive_numbers (year pubn : Int) (t : String) (n : Nat)
    (cd : Option String) (hp : 0 ≤ pubn)
    (hcalc : ∀ (y : Int) (k : Nat),
      calculate_number ⟨y, 12, 31⟩ t = .ok k → 1 ≤ k) :
    (gen_urls year pubn t n cd =
       (gen_coords year pubn t n).map
         (fun l => l.map (fun c => build_url c.1 c.2 t cd)))
  ∧ (∀ l, gen_coords year pubn t n = .ok l → ∀ c ∈ l, 1 ≤ c.2) :=
  ⟨gen_urls_eq_coords t cd n year pubn,
   fun l hl c hc => gen_coords_positive t hcalc n year pubn hp l hl c hc⟩

/-- C10 witness: the positivity theorem applied to the table-B sequencer
started at the start-of-year sentinel (2013, 0), using the fact that every
year contains a Wednesday by December 31. -/
theorem gen_urls_positive_numbers_witness :
    (gen_urls 2013 0 "b" 15 none =
       (gen_coords 2013 0 "b" 15).map
         (fun l => l.map (fun c => build_url c.1 c.2 "b" none)))
  ∧ (∀ l, gen_coords 2013 0 "b" 15 = .ok l → ∀ c ∈ l, 1 ≤ c.2) :=
  gen_urls_positive_numbers 2013 0 "b" 15 none (by decide)
    (fun y k hk => by
      rw [calculate_number_b] at hk
      exact Except.ok.inj hk ▸ count_wednesdays_pos_dec31 y)
